import Mathlib

/-!
Verification of the YewChat client-side protocol/state engine
(`src/YewChat/src/components/chat.rs`) against its specification.

The embedding below translates the Rust source:
* `JsonValue` and the fuel-indexed parser model `serde_json`'s text-to-value
  step, restricted to what the wire schema can contain (the schema has no
  numeric fields, so numbers are kept as raw text — any number is rejected by
  the schema-level deserializers anyway, exactly as in serde).
* `WebSocketMessage`, `MessageData`, `MsgTypes`, `UserProfile`, `Chat`
  mirror the structs in chat.rs lines 14-48.
* `handleDecoded` / `handleMsg` embed `Chat::update`'s `Msg::HandleMsg` arm
  (lines 86-113); every `.unwrap()` on a failing value is modelled as
  `UpdateResult.panic`.
* `submitMessage` embeds the `Msg::SubmitMessage` arm (lines 115-134);
  `createChat` embeds `Chat::create` (lines 53-81).
* `serializeWebSocketMessage` embeds `serde_json::to_string` for
  `WebSocketMessage` (serde derives with `rename_all = "camelCase"` on the
  struct, `rename_all = "lowercase"` on `MsgTypes`, and no
  `skip_serializing_if`, so a `None` field is encoded as `null`).
-/

/-- Wire discriminant, chat.rs lines 20-26 (`Users`, `Register`, `Message`,
serialized lowercase). -/
inductive MsgTypes where
  | Users
  | Register
  | Message
deriving DecidableEq, Repr

/-- Nested chat entry, chat.rs lines 14-18: `struct MessageData { from, message }`. -/
structure MessageData where
  «from» : String
  message : String
deriving DecidableEq, Repr

/-- Wire envelope, chat.rs lines 28-34: `message_type`, `data_array`, `data`,
serialized in camelCase in this declaration order. -/
structure WebSocketMessage where
  message_type : MsgTypes
  data_array : Option (List String)
  data : Option String
deriving DecidableEq, Repr

/-- Roster entry, chat.rs lines 36-40. -/
structure UserProfile where
  name : String
  avatar : String
deriving DecidableEq, Repr

/-- Session state, chat.rs lines 42-48: the `users` roster and the `messages`
log (the `NodeRef`, bridge and websocket handle are presentation/transport
collaborators, modelled at the call sites that touch them). -/
structure Chat where
  users : List UserProfile
  messages : List MessageData
deriving DecidableEq, Repr

/-- JSON value as produced by the text decoder. Numbers are kept as their raw
text: the wire schema never deserializes a number, so only their presence
matters. -/
inductive JsonValue where
  | null : JsonValue
  | bool : Bool → JsonValue
  | num : String → JsonValue
  | str : String → JsonValue
  | arr : List JsonValue → JsonValue
  | obj : List (String × JsonValue) → JsonValue
deriving Repr

/-- JSON insignificant whitespace. -/
def isJsonWs (c : Char) : Bool :=
  c = ' ' || c = '\t' || c = '\n' || c = '\r'

/-- Drop leading JSON whitespace. -/
def skipWs : List Char → List Char
  | [] => []
  | c :: cs => if isJsonWs c then skipWs cs else c :: cs

/-- Hex digit value, for \uXXXX escapes. -/
def hexVal (c : Char) : Option Nat :=
  if '0' ≤ c ∧ c ≤ '9' then some (c.toNat - '0'.toNat)
  else if 'a' ≤ c ∧ c ≤ 'f' then some (c.toNat - 'a'.toNat + 10)
  else if 'A' ≤ c ∧ c ≤ 'F' then some (c.toNat - 'A'.toNat + 10)
  else none

/-- Read four hex digits of a \u escape. -/
def readHex4 : List Char → Option (Nat × List Char)
  | c1 :: c2 :: c3 :: c4 :: rest => do
    let h1 ← hexVal c1
    let h2 ← hexVal c2
    let h3 ← hexVal c3
    let h4 ← hexVal c4
    pure (((h1 * 16 + h2) * 16 + h3) * 16 + h4, rest)
  | _ => none

/-- Body of a JSON string after the opening quote: plain characters, escapes,
and surrogate-pair \u sequences; a raw control character or a lone surrogate
is a decode error, as in serde_json. -/
def parseStringBody : Nat → List Char → Option (List Char × List Char)
  | 0, _ => none
  | _ + 1, [] => none
  | fuel + 1, c :: cs =>
    if c = '"' then
      some ([], cs)
    else if c = '\\' then
      match cs with
      | [] => none
      | e :: cs2 =>
        if e = 'u' then
          match readHex4 cs2 with
          | none => none
          | some (n, cs3) =>
            if 0xD800 ≤ n ∧ n ≤ 0xDBFF then
              match cs3 with
              | '\\' :: 'u' :: cs4 =>
                match readHex4 cs4 with
                | none => none
                | some (m, cs5) =>
                  if 0xDC00 ≤ m ∧ m ≤ 0xDFFF then
                    let code := 0x10000 + (n - 0xD800) * 0x400 + (m - 0xDC00)
                    match parseStringBody fuel cs5 with
                    | none => none
                    | some (tail, rest) => some (Char.ofNat code :: tail, rest)
                  else none
              | _ => none
            else if 0xDC00 ≤ n ∧ n ≤ 0xDFFF then none
            else
              match parseStringBody fuel cs3 with
              | none => none
              | some (tail, rest) => some (Char.ofNat n :: tail, rest)
        else
          let decoded : Option Char :=
            if e = '"' then some '"'
            else if e = '\\' then some '\\'
            else if e = '/' then some '/'
            else if e = 'b' then some '\x08'
            else if e = 'f' then some '\x0c'
            else if e = 'n' then some '\n'
            else if e = 'r' then some '\r'
            else if e = 't' then some '\t'
            else none
          match decoded with
          | none => none
          | some d =>
            match parseStringBody fuel cs2 with
            | none => none
            | some (tail, rest) => some (d :: tail, rest)
    else if c.toNat < 0x20 then none
    else
      match parseStringBody fuel cs with
      | none => none
      | some (tail, rest) => some (c :: tail, rest)

/-- ASCII decimal digit test. -/
def isDigitChar (c : Char) : Bool := '0' ≤ c ∧ c ≤ '9'

/-- Longest leading run of digits. -/
def takeDigits : List Char → List Char × List Char
  | [] => ([], [])
  | c :: cs =>
    if isDigitChar c then
      let (ds, rest) := takeDigits cs
      (c :: ds, rest)
    else ([], c :: cs)

/-- JSON number grammar: optional minus, integer part without leading zeros,
optional fraction, optional exponent; returns the raw text. -/
def parseNumberChars (cs : List Char) : Option (List Char × List Char) := do
  let (neg, cs1) :=
    match cs with
    | '-' :: rest => (['-'], rest)
    | _ => (([] : List Char), cs)
  let (intPart, cs2) ←
    match cs1 with
    | '0' :: rest => some (['0'], rest)
    | c :: _ =>
      if isDigitChar c then
        let (ds, rest) := takeDigits cs1
        some (ds, rest)
      else none
    | [] => none
  let (fracPart, cs3) ←
    match cs2 with
    | '.' :: rest =>
      let (ds, rest2) := takeDigits rest
      if ds = [] then none else some ('.' :: ds, rest2)
    | _ => some (([] : List Char), cs2)
  let (expPart, cs4) ←
    match cs3 with
    | e :: rest =>
      if e = 'e' ∨ e = 'E' then
        let (sign, rest2) :=
          match rest with
          | '+' :: r => (['+'], r)
          | '-' :: r => (['-'], r)
          | _ => (([] : List Char), rest)
        let (ds, rest3) := takeDigits rest2
        if ds = [] then none else some (e :: sign ++ ds, rest3)
      else some (([] : List Char), cs3)
    | [] => some (([] : List Char), cs3)
  pure (neg ++ intPart ++ fracPart ++ expPart, cs4)

mutual

/-- Fuel-indexed JSON value parser (the text-to-structure half of
`serde_json::from_str`). -/
def parseValue : Nat → List Char → Option (JsonValue × List Char)
  | 0, _ => none
  | fuel + 1, cs =>
    match skipWs cs with
    | [] => none
    | c :: rest =>
      if c = 'n' then
        match rest with
        | 'u' :: 'l' :: 'l' :: rest2 => some (JsonValue.null, rest2)
        | _ => none
      else if c = 't' then
        match rest with
        | 'r' :: 'u' :: 'e' :: rest2 => some (JsonValue.bool true, rest2)
        | _ => none
      else if c = 'f' then
        match rest with
        | 'a' :: 'l' :: 's' :: 'e' :: rest2 => some (JsonValue.bool false, rest2)
        | _ => none
      else if c = '"' then
        match parseStringBody (rest.length + 1) rest with
        | none => none
        | some (chars, rest2) => some (JsonValue.str (String.mk chars), rest2)
      else if c = '\x7b' then
        match skipWs rest with
        | '\x7d' :: rest2 => some (JsonValue.obj [], rest2)
        | rest2 =>
          match parseObjItems fuel rest2 with
          | none => none
          | some (fields, rest3) => some (JsonValue.obj fields, rest3)
      else if c = '[' then
        match skipWs rest with
        | ']' :: rest2 => some (JsonValue.arr [], rest2)
        | rest2 =>
          match parseArrayItems fuel rest2 with
          | none => none
          | some (items, rest3) => some (JsonValue.arr items, rest3)
      else if c = '-' ∨ isDigitChar c then
        match parseNumberChars (c :: rest) with
        | none => none
        | some (raw, rest2) => some (JsonValue.num (String.mk raw), rest2)
      else none

/-- Comma-separated array elements up to the closing bracket. -/
def parseArrayItems : Nat → List Char → Option (List JsonValue × List Char)
  | 0, _ => none
  | fuel + 1, cs =>
    match parseValue fuel cs with
    | none => none
    | some (v, rest) =>
      match skipWs rest with
      | ',' :: rest2 =>
        match parseArrayItems fuel rest2 with
        | none => none
        | some (vs, rest3) => some (v :: vs, rest3)
      | ']' :: rest2 => some ([v], rest2)
      | _ => none

/-- Comma-separated `"key": value` members up to the closing brace. -/
def parseObjItems : Nat → List Char → Option (List (String × JsonValue) × List Char)
  | 0, _ => none
  | fuel + 1, cs =>
    match skipWs cs with
    | '"' :: rest =>
      match parseStringBody (rest.length + 1) rest with
      | none => none
      | some (keyChars, rest2) =>
        match skipWs rest2 with
        | ':' :: rest3 =>
          match parseValue fuel rest3 with
          | none => none
          | some (v, rest4) =>
            match skipWs rest4 with
            | ',' :: rest5 =>
              match parseObjItems fuel rest5 with
              | none => none
              | some (fields, rest6) => some ((String.mk keyChars, v) :: fields, rest6)
            | '\x7d' :: rest5 => some ([(String.mk keyChars, v)], rest5)
            | _ => none
        | _ => none
    | _ => none

end

/-- Parse a whole JSON document: one value, then only trailing whitespace
(`serde_json::from_str` rejects trailing content). -/
def parseJson (s : String) : Option JsonValue :=
  match parseValue (2 * s.length + 4) s.data with
  | none => none
  | some (v, rest) =>
    match skipWs rest with
    | [] => some v
    | _ => none

/-- Number of occurrences of a key among an object's members. Serde's derived
deserializer errors with "duplicate field" when a known field repeats. -/
def countKey (fields : List (String × JsonValue)) (k : String) : Nat :=
  (fields.filter (fun p => p.1 = k)).length

/-- First value bound to a key, if any. -/
def getField (fields : List (String × JsonValue)) (k : String) : Option JsonValue :=
  match fields.find? (fun p => p.1 = k) with
  | none => none
  | some p => some p.2

/-- Deserialize `MsgTypes` (derive with `rename_all = "lowercase"`): exactly
one of the three lowercase tag strings. -/
def msgTypesFromJson : JsonValue → Option MsgTypes
  | JsonValue.str s =>
    if s = "users" then some MsgTypes.Users
    else if s = "register" then some MsgTypes.Register
    else if s = "message" then some MsgTypes.Message
    else none
  | _ => none

/-- Deserialize `Vec<String>`: an array whose every element is a string. -/
def stringListFromJson : JsonValue → Option (List String)
  | JsonValue.arr xs =>
    xs.mapM (fun j =>
      match j with
      | JsonValue.str s => some s
      | _ => none)
  | _ => none

/-- Deserialize an `Option<T>`-typed field from its lookup result: a missing
field or an explicit `null` is `None`; anything else must deserialize as `T`. -/
def optFieldFromJson {α : Type} (deser : JsonValue → Option α) :
    Option JsonValue → Option (Option α)
  | none => some none
  | some JsonValue.null => some none
  | some j =>
    match deser j with
    | none => none
    | some a => some (some a)

/-- Deserialize `WebSocketMessage` (serde derive, `rename_all = "camelCase"`):
`messageType` is required, `dataArray` and `data` are optional, unknown fields
are ignored, duplicate known fields are an error. -/
def webSocketMessageFromJson : JsonValue → Option WebSocketMessage
  | JsonValue.obj fields =>
    if countKey fields "messageType" ≤ 1 ∧ countKey fields "dataArray" ≤ 1
        ∧ countKey fields "data" ≤ 1 then
      match getField fields "messageType" with
      | none => none
      | some mtJson =>
        match msgTypesFromJson mtJson with
        | none => none
        | some mt =>
          match optFieldFromJson stringListFromJson (getField fields "dataArray") with
          | none => none
          | some da =>
            match optFieldFromJson (fun j =>
                match j with
                | JsonValue.str s => some s
                | _ => none) (getField fields "data") with
            | none => none
            | some d => some { message_type := mt, data_array := da, data := d }
    else none
  | _ => none

/-- Deserialize `MessageData` (serde derive, no rename): both `from` and
`message` are required strings, unknown fields ignored, duplicates an error. -/
def messageDataFromJson : JsonValue → Option MessageData
  | JsonValue.obj fields =>
    if countKey fields "from" ≤ 1 ∧ countKey fields "message" ≤ 1 then
      match getField fields "from" with
      | some (JsonValue.str f) =>
        match getField fields "message" with
        | some (JsonValue.str m) => some { «from» := f, message := m }
        | _ => none
      | _ => none
    else none
  | _ => none

/-- The full `serde_json::from_str::<WebSocketMessage>` pipeline, chat.rs
line 87. -/
def decodeWebSocketMessage (s : String) : Option WebSocketMessage :=
  match parseJson s with
  | none => none
  | some j => webSocketMessageFromJson j

/-- The nested `serde_json::from_str::<MessageData>` pipeline, chat.rs
line 106. -/
def decodeMessageData (s : String) : Option MessageData :=
  match parseJson s with
  | none => none
  | some j => messageDataFromJson j

/-- Escape one character the way `serde_json::to_string` does: `"` and `\`
get a backslash, the short control escapes are used where they exist, other
control characters become `\u00XX`, everything else is passed through. -/
def escapeJsonChar (c : Char) : String :=
  if c = '"' then "\\\""
  else if c = '\\' then "\\\\"
  else if c = '\x08' then "\\b"
  else if c = '\x0c' then "\\f"
  else if c = '\n' then "\\n"
  else if c = '\r' then "\\r"
  else if c = '\t' then "\\t"
  else if c.toNat < 0x20 then
    let lowHex : Nat → Char := fun n => if n < 10 then Char.ofNat ('0'.toNat + n)
      else Char.ofNat ('a'.toNat + (n - 10))
    String.mk ['\\', 'u', '0', '0', lowHex (c.toNat / 16), lowHex (c.toNat % 16)]
  else String.mk [c]

/-- Serialize a string with surrounding quotes. -/
def encodeJsonString (s : String) : String :=
  "\"" ++ String.join (s.data.map escapeJsonChar) ++ "\""

/-- Wire tag of each `MsgTypes` variant (`rename_all = "lowercase"`). -/
def msgTypeTag : MsgTypes → String
  | MsgTypes.Users => "users"
  | MsgTypes.Register => "register"
  | MsgTypes.Message => "message"

/-- `serde_json::to_string::<WebSocketMessage>`: compact output, fields in
declaration order renamed to camelCase; a `None` option is serialized as
`null` because the struct carries no `skip_serializing_if` attribute. -/
def serializeWebSocketMessage (m : WebSocketMessage) : String :=
  "\x7b\"messageType\":" ++ encodeJsonString (msgTypeTag m.message_type)
    ++ ",\"dataArray\":"
    ++ (match m.data_array with
        | none => "null"
        | some xs => "[" ++ String.intercalate "," (xs.map encodeJsonString) ++ "]")
    ++ ",\"data\":"
    ++ (match m.data with
        | none => "null"
        | some s => encodeJsonString s)
    ++ "\x7d"

/-- Avatar URL template, chat.rs lines 95-99: the raw name is interpolated
into the dicebear URL by `format!` with no encoding step. -/
def avatarUrl (u : String) : String :=
  "https://avatars.dicebear.com/api/adventurer-neutral/" ++ u ++ ".svg"

/-- The roster reconciliation map, chat.rs lines 91-101: each name becomes a
`UserProfile` with the derived avatar URL, in input order. -/
def applyRoster (names : List String) : List UserProfile :=
  names.map (fun u => { name := u, avatar := avatarUrl u })

/-- Result of one `Chat::update` dispatch: either a successor state together
with the `bool` re-render flag the method returns, or a panic raised by an
`.unwrap()` on a failed decode (the session crashes). -/
inductive UpdateResult where
  | ok : Chat → Bool → UpdateResult
  | panic : UpdateResult
deriving DecidableEq, Repr

/-- The dispatch over a successfully decoded envelope, chat.rs lines 88-113:
`Users` rebuilds the roster from `data_array.unwrap_or_default()` and returns
`true`; `Message` unwraps `data`, decodes the nested `MessageData` with
another `.unwrap()`, pushes it and returns `true`; anything else (the
`Register` catch-all arm) returns `false` without touching the state. -/
def handleDecoded (msg : WebSocketMessage) (st : Chat) : UpdateResult :=
  match msg.message_type with
  | MsgTypes.Users =>
    let users_from_message := msg.data_array.getD []
    UpdateResult.ok { st with users := applyRoster users_from_message } true
  | MsgTypes.Message =>
    match msg.data with
    | none => UpdateResult.panic
    | some payload =>
      match decodeMessageData payload with
      | none => UpdateResult.panic
      | some message_data =>
        UpdateResult.ok { st with messages := st.messages ++ [message_data] } true
  | _ => UpdateResult.ok st false

/-- The `Msg::HandleMsg(s)` arm, chat.rs lines 86-113: the top-level
`serde_json::from_str(&s).unwrap()` panics when the frame is malformed,
otherwise the decoded envelope is dispatched. -/
def handleMsg (s : String) (st : Chat) : UpdateResult :=
  match decodeWebSocketMessage s with
  | none => UpdateResult.panic
  | some msg => handleDecoded msg st

/-- Observable outcome of the `Msg::SubmitMessage` arm: the frames handed to
`try_send` (in order), the successor state, the returned re-render flag, and
the input element's value afterwards. -/
structure SubmitResult where
  attempts : List String
  state : Chat
  render : Bool
  inputAfter : Option String
deriving DecidableEq, Repr

/-- The `Msg::SubmitMessage` arm, chat.rs lines 115-134. `input` is the
value of the chat input element (`none` when the `NodeRef` cast fails).
`sendOk` is the result of the single `try_send` call; its `Err` branch only
logs, so it is unused by the state transition — the method always leaves
`users` and `messages` untouched, clears the input and returns `false`. -/
def submitMessage (input : Option String) (_sendOk : Bool) (st : Chat) : SubmitResult :=
  match input with
  | none => { attempts := [], state := st, render := false, inputAfter := none }
  | some v =>
    let frame := serializeWebSocketMessage
      { message_type := MsgTypes.Message, data_array := none, data := some v }
    { attempts := [frame], state := st, render := false, inputAfter := some "" }

/-- `Chat::create`, chat.rs lines 53-81: builds the `Register` envelope for
the local display name, hands its encoding to `try_send` (a failure is
ignored entirely), and starts with empty roster and empty log. Returns the
frame submitted to the channel and the initial state. -/
def createChat (username : String) : String × Chat :=
  let message : WebSocketMessage :=
    { message_type := MsgTypes.Register, data_array := none, data := some username }
  (serializeWebSocketMessage message, { users := [], messages := [] })

/-- Sequential inbound handling of already-decoded envelopes: threads the
state through `handleDecoded`, stopping with `none` if any step panics. -/
def runInbound : Chat → List WebSocketMessage → Option Chat
  | st, [] => some st
  | st, m :: ms =>
    match handleDecoded m st with
    | UpdateResult.ok st2 _ => runInbound st2 ms
    | UpdateResult.panic => none

/-- Unreserved URI characters (RFC 3986): letters, digits, `-`, `.`, `_`, `~`
— the characters URL-encoding leaves unchanged. -/
def isUnreservedChar (c : Char) : Bool :=
  ('a' ≤ c ∧ c ≤ 'z') || ('A' ≤ c ∧ c ≤ 'Z') || ('0' ≤ c ∧ c ≤ '9')
    || c = '-' || c = '.' || c = '_' || c = '~'

/-- UTF-8 bytes of a code point. -/
def utf8Bytes (n : Nat) : List Nat :=
  if n < 0x80 then [n]
  else if n < 0x800 then [0xC0 + n / 0x40, 0x80 + n % 0x40]
  else if n < 0x10000 then
    [0xE0 + n / 0x1000, 0x80 + (n / 0x40) % 0x40, 0x80 + n % 0x40]
  else
    [0xF0 + n / 0x40000, 0x80 + (n / 0x1000) % 0x40, 0x80 + (n / 0x40) % 0x40,
      0x80 + n % 0x40]

/-- Uppercase hex digit. -/
def upHexDigit (n : Nat) : Char :=
  if n < 10 then Char.ofNat ('0'.toNat + n) else Char.ofNat ('A'.toNat + (n - 10))

/-- Percent-encoding of one byte. -/
def percentEncodeByte (b : Nat) : String :=
  String.mk ['%', upHexDigit (b / 16), upHexDigit (b % 16)]

/-- URL-encoding of one character: unreserved characters pass through, every
other character becomes the percent-encoding of its UTF-8 bytes. -/
def urlEncodeChar (c : Char) : String :=
  if isUnreservedChar c then String.mk [c]
  else String.join ((utf8Bytes c.toNat).map percentEncodeByte)

/-- URL-encoding of a character list. -/
def urlEncodeList : List Char → String
  | [] => ""
  | c :: cs => urlEncodeChar c ++ urlEncodeList cs

/-- URL-encoding of a string. -/
def urlEncodeSpec (s : String) : String :=
  urlEncodeList s.data

/-- Following the spec's words (refinement comparison for the avatar claim):
`<identicon-service-base>/<urlencoded name>.svg`, i.e. the name component is
URL-encoded before substitution into the template. The code's actual
derivation is `avatarUrl`. -/
def avatarUrlSpec (u : String) : String :=
  "https://avatars.dicebear.com/api/adventurer-neutral/" ++ urlEncodeSpec u ++ ".svg"

/-- C1, counterexample: the single character `{` is not well-formed, its
top-level decode fails, and `Chat::update` panics on it — the claim's "raises
no observable fault (the session does not crash)" is false at this input. -/
theorem C1_counterexample :
    decodeWebSocketMessage "\x7b" = none
    ∧ handleMsg "\x7b" { users := [], messages := [] } = UpdateResult.panic := by
  constructor
  · decide
  · decide

/-- C1, amended: an inbound text frame whose top-level decode fails makes
`Chat::update` panic (the `.unwrap()` on the decode result crashes the
session); the Participant list and Message Log are not mutated by such a
frame, but a fault is raised rather than silently discarding the frame. -/
theorem C1_amended (s : String) (st : Chat) (h : decodeWebSocketMessage s = none) :
    handleMsg s st = UpdateResult.panic := by
  unfold handleMsg
  rw [h]

/-- C1, witness: the amended theorem applied to the malformed frame
`not json` from an arbitrary concrete state. -/
theorem C1_witness :
    decodeWebSocketMessage "not json" = none
    ∧ handleMsg "not json"
        { users := [{ name := "A", avatar := avatarUrl "A" }], messages := [] }
        = UpdateResult.panic := by
  refine ⟨by decide, ?_⟩
  exact C1_amended "not json" _ (by decide)

/-- C2, counterexample: submitting the empty string is not a no-op — a frame
is handed to `try_send` (the code never tests for emptiness), so "no frame is
submitted to the connection channel" is false. -/
theorem C2_counterexample :
    (submitMessage (some "") true { users := [], messages := [] }).attempts ≠ [] := by
  decide

/-- C2, amended: submitting an empty input string still submits exactly one
Chat frame with empty payload to the channel; the session state (Participant
list and Message Log) is unchanged, no re-render is requested, and the input
is cleared. -/
theorem C2_amended (st : Chat) (b : Bool) :
    submitMessage (some "") b st =
      { attempts := ["\x7b\"messageType\":\"message\",\"dataArray\":null,\"data\":\"\"\x7d"],
        state := st, render := false, inputAfter := some "" } := rfl

/-- C5: an inbound Roster envelope whose list payload is absent is treated as
an empty roster — the Participant list becomes empty — rather than an error. -/
theorem C5_theorem (s : String) (st : Chat) (d : Option String)
    (h : decodeWebSocketMessage s =
      some { message_type := MsgTypes.Users, data_array := none, data := d }) :
    handleMsg s st = UpdateResult.ok { st with users := [] } true := by
  unfold handleMsg
  rw [h]
  rfl

/-- C5, witness: the frame with no `dataArray` field empties a non-empty
roster while leaving the log alone. -/
theorem C5_witness :
    decodeWebSocketMessage "\x7b\"messageType\":\"users\"\x7d" =
      some { message_type := MsgTypes.Users, data_array := none, data := none }
    ∧ handleMsg "\x7b\"messageType\":\"users\"\x7d"
        { users := [{ name := "Bob", avatar := avatarUrl "Bob" }],
          messages := [{ «from» := "Ann", message := "m" }] }
        = UpdateResult.ok
            { users := [], messages := [{ «from» := "Ann", message := "m" }] } true := by
  refine ⟨by decide, ?_⟩
  exact C5_theorem _ _ none (by decide)

/-- C6: an inbound frame that decodes to the `Register` variant is a no-op
that does not error — the state is returned unchanged with a `false`
re-render flag (the catch-all `_` arm of the match). -/
theorem C6_theorem (s : String) (st : Chat) (da : Option (List String)) (d : Option String)
    (h : decodeWebSocketMessage s =
      some { message_type := MsgTypes.Register, data_array := da, data := d }) :
    handleMsg s st = UpdateResult.ok st false := by
  unfold handleMsg
  rw [h]
  rfl

/-- C6, witness: a concrete inbound register frame leaves a concrete state
untouched and signals no re-render. -/
theorem C6_witness :
    decodeWebSocketMessage "\x7b\"messageType\":\"register\",\"data\":\"X\"\x7d" =
      some { message_type := MsgTypes.Register, data_array := none, data := some "X" }
    ∧ handleMsg "\x7b\"messageType\":\"register\",\"data\":\"X\"\x7d"
        { users := [{ name := "Bob", avatar := avatarUrl "Bob" }],
          messages := [{ «from» := "Ann", message := "m" }] }
        = UpdateResult.ok
            { users := [{ name := "Bob", avatar := avatarUrl "Bob" }],
              messages := [{ «from» := "Ann", message := "m" }] } false := by
  refine ⟨by decide, ?_⟩
  exact C6_theorem _ _ none (some "X") (by decide)

/-- C3, counterexample: a Chat-variant frame whose nested payload `oops` is
not a valid ChatEntry is not discarded silently — the nested
`serde_json::from_str(..).unwrap()` panics, so "the Message Log and
Participant list are unchanged and no fault is raised" is false here. -/
theorem C3_counterexample :
    decodeMessageData "oops" = none
    ∧ handleMsg "\x7b\"messageType\":\"message\",\"data\":\"oops\"\x7d"
        { users := [], messages := [] } = UpdateResult.panic := by
  constructor
  · decide
  · decide

/-- C3, amended: on a Chat-variant envelope the update panics when the
payload is absent (`data.unwrap()`) or when the nested ChatEntry decode
fails (second `.unwrap()`); on successful nested decode the entry is
appended to the Message Log and a re-render is requested. -/
theorem C3_amended (st : Chat) (da : Option (List String)) :
    handleDecoded { message_type := MsgTypes.Message, data_array := da, data := none } st
      = UpdateResult.panic
    ∧ (∀ d, decodeMessageData d = none →
        handleDecoded { message_type := MsgTypes.Message, data_array := da, data := some d } st
          = UpdateResult.panic)
    ∧ (∀ d md, decodeMessageData d = some md →
        handleDecoded { message_type := MsgTypes.Message, data_array := da, data := some d } st
          = UpdateResult.ok { st with messages := st.messages ++ [md] } true) := by
  refine ⟨rfl, ?_, ?_⟩
  · intro d hd
    unfold handleDecoded
    simp only
    rw [hd]
  · intro d md hd
    unfold handleDecoded
    simp only
    rw [hd]

/-- C3, witness: the amended theorem at the failing payload `oops` and at the
valid payload for `ChatEntry{from: Bob, message: hi}`. -/
theorem C3_witness :
    handleDecoded { message_type := MsgTypes.Message, data_array := none, data := some "oops" }
        { users := [], messages := [] } = UpdateResult.panic
    ∧ handleDecoded
        { message_type := MsgTypes.Message, data_array := none,
          data := some "\x7b\"from\":\"Bob\",\"message\":\"hi\"\x7d" }
        { users := [], messages := [] }
        = UpdateResult.ok
            { users := [], messages := [{ «from» := "Bob", message := "hi" }] } true := by
  constructor
  · exact (C3_amended { users := [], messages := [] } none).2.1 "oops" (by decide)
  · exact (C3_amended { users := [], messages := [] } none).2.2
      "\x7b\"from\":\"Bob\",\"message\":\"hi\"\x7d"
      { «from» := "Bob", message := "hi" } (by decide)

/-- C4: handling a sequence of Roster envelopes fully replaces the
Participant list each time — after the last envelope the roster equals
`applyRoster` of that envelope's name list alone, with no accumulation, and
the Message Log is untouched; concretely, the inbound frame
`messageType users, dataArray [Alice, Bob]` yields the Alice and Bob
profiles in that order. -/
theorem C4_theorem :
    (∀ (st : Chat) (rs : List (List String)) (lastNames : List String),
      runInbound st ((rs ++ [lastNames]).map (fun names =>
        { message_type := MsgTypes.Users, data_array := some names, data := none })) =
      some { users := applyRoster lastNames, messages := st.messages })
    ∧ handleMsg "\x7b\"messageType\":\"users\",\"dataArray\":[\"Alice\",\"Bob\"]\x7d"
        { users := [], messages := [] }
        = UpdateResult.ok
            { users := [{ name := "Alice", avatar := avatarUrl "Alice" },
                        { name := "Bob", avatar := avatarUrl "Bob" }],
              messages := [] } true := by
  constructor
  · intro st rs lastNames
    induction rs generalizing st with
    | nil => rfl
    | cons r rest ih => exact ih _
  · decide

/-- C7, counterexample: the register frame submitted on construction is not
the claimed exact text — the unused `dataArray` field is serialized as
`null`, not omitted (the struct has no skip attribute). -/
theorem C7_counterexample :
    (createChat "Alice").1 ≠ "\x7b\"messageType\":\"register\",\"data\":\"Alice\"\x7d" := by
  decide

/-- C7, amended: on construction with local name Alice the channel receives
exactly the text with the unused optional field encoded as null; in general
the register frame for any name encodes `dataArray` as `null` and `data` as
the JSON string of the name, so exactly one of the two optional fields is
non-null but both appear in the encoded text. -/
theorem C7_amended :
    (createChat "Alice").1
      = "\x7b\"messageType\":\"register\",\"dataArray\":null,\"data\":\"Alice\"\x7d"
    ∧ (∀ u : String, (createChat u).1
        = "\x7b\"messageType\":\"register\",\"dataArray\":null,\"data\":"
            ++ encodeJsonString u ++ "\x7d") := by
  refine ⟨by decide, fun u => ?_⟩
  rfl

/-- C8, counterexample: submitting `hello` does not send the claimed exact
text — the frame handed to `try_send` carries a `dataArray` field encoded as
null, which the claimed text omits. -/
theorem C8_counterexample :
    (submitMessage (some "hello") true { users := [], messages := [] }).attempts
      ≠ ["\x7b\"messageType\":\"message\",\"data\":\"hello\"\x7d"] := by
  decide

/-- C8, amended: submitting `hello` hands exactly one frame — with the unused
`dataArray` field encoded as null — to `try_send`, appends nothing to the
local Message Log, leaves the whole state unchanged, and the outcome is
independent of whether the send succeeds (the error branch only logs; there
is no retry). -/
theorem C8_amended :
    (∀ (st : Chat) (b : Bool), submitMessage (some "hello") b st =
      { attempts := ["\x7b\"messageType\":\"message\",\"dataArray\":null,\"data\":\"hello\"\x7d"],
        state := st, render := false, inputAfter := some "" })
    ∧ (∀ (st : Chat) (v : String),
        submitMessage (some v) true st = submitMessage (some v) false st) := by
  exact ⟨fun st b => rfl, fun st v => rfl⟩

/-- URL-encoding acts as the identity on a list of unreserved characters. -/
theorem urlEncodeList_unreserved (l : List Char) (h : l.all isUnreservedChar = true) :
    urlEncodeList l = String.mk l := by
  induction l with
  | nil => rfl
  | cons c cs ih =>
    rw [List.all_cons, Bool.and_eq_true] at h
    unfold urlEncodeList urlEncodeChar
    rw [if_pos h.1, ih h.2]
    rfl

/-- C9, counterexample: the avatar URL for the name `a b` substitutes the raw
name, so it differs from the URL-encoded form the claim demands (the space is
not turned into %20). -/
theorem C9_counterexample :
    avatarUrl "a b" ≠ avatarUrlSpec "a b"
    ∧ avatarUrl "a b" = "https://avatars.dicebear.com/api/adventurer-neutral/a b.svg"
    ∧ avatarUrlSpec "a b" = "https://avatars.dicebear.com/api/adventurer-neutral/a%20b.svg" := by
  refine ⟨by decide, by decide, by decide⟩

/-- C9, amended: the derived avatar URL is a pure deterministic function of
the name of the form `<identicon-service-base>/<raw name>.svg` — the name is
interpolated with no URL-encoding step — and it coincides with the
URL-encoded form of the claim exactly when every character of the name is an
unreserved URI character. -/
theorem C9_amended (u : String) (h : u.data.all isUnreservedChar = true) :
    avatarUrl u = avatarUrlSpec u := by
  unfold avatarUrl avatarUrlSpec urlEncodeSpec
  rw [urlEncodeList_unreserved u.data h]

/-- C9, witness: for the all-unreserved name Alice the code's URL and the
URL-encoded template agree. -/
theorem C9_witness :
    "Alice".data.all isUnreservedChar = true
    ∧ avatarUrl "Alice" = avatarUrlSpec "Alice" := by
  refine ⟨by decide, ?_⟩
  exact C9_amended "Alice" (by decide)

/-- Reduction of the Message arm when the nested decode fails. -/
theorem handleDecoded_msg_decode_none (st : Chat) (da : Option (List String)) (d : String)
    (hd : decodeMessageData d = none) :
    handleDecoded { message_type := MsgTypes.Message, data_array := da, data := some d } st
      = UpdateResult.panic := by
  unfold handleDecoded
  simp only
  rw [hd]

/-- Reduction of the Message arm when the nested decode succeeds. -/
theorem handleDecoded_msg_decode_some (st : Chat) (da : Option (List String)) (d : String)
    (md : MessageData) (hd : decodeMessageData d = some md) :
    handleDecoded { message_type := MsgTypes.Message, data_array := da, data := some d } st
      = UpdateResult.ok { st with messages := st.messages ++ [md] } true := by
  unfold handleDecoded
  simp only
  rw [hd]

/-- C10: frame conditions — a Users frame never changes the Message Log, a
Message frame never changes the Participant list, `SubmitMessage` changes
neither, and any successful inbound dispatch only ever extends the Message
Log by appending entries. -/
theorem C10_theorem :
    (∀ (st : Chat) (da : Option (List String)) (d : Option String) (st2 : Chat) (r : Bool),
      handleDecoded { message_type := MsgTypes.Users, data_array := da, data := d } st
        = UpdateResult.ok st2 r → st2.messages = st.messages)
    ∧ (∀ (st : Chat) (da : Option (List String)) (d : Option String) (st2 : Chat) (r : Bool),
        handleDecoded { message_type := MsgTypes.Message, data_array := da, data := d } st
          = UpdateResult.ok st2 r → st2.users = st.users)
    ∧ (∀ (input : Option String) (b : Bool) (st : Chat),
        (submitMessage input b st).state = st)
    ∧ (∀ (m : WebSocketMessage) (st st2 : Chat) (r : Bool),
        handleDecoded m st = UpdateResult.ok st2 r →
        ∃ t, st2.messages = st.messages ++ t) := by
  refine ⟨?_, ?_, ?_, ?_⟩
  · intro st da d st2 r h
    have h2 : UpdateResult.ok { st with users := applyRoster (da.getD []) } true
        = UpdateResult.ok st2 r := h
    cases h2
    rfl
  · intro st da d st2 r h
    cases d with
    | none => exact absurd h (by simp [handleDecoded])
    | some payload =>
      cases hd : decodeMessageData payload with
      | none =>
        rw [handleDecoded_msg_decode_none st da payload hd] at h
        exact absurd h (by simp)
      | some md =>
        rw [handleDecoded_msg_decode_some st da payload md hd] at h
        cases h
        rfl
  · intro input b st
    cases input with
    | none => rfl
    | some v => rfl
  · intro m st st2 r h
    obtain ⟨mt, da, d⟩ := m
    cases mt with
    | Users =>
      have h2 : UpdateResult.ok { st with users := applyRoster (da.getD []) } true
          = UpdateResult.ok st2 r := h
      cases h2
      exact ⟨[], by simp⟩
    | Register =>
      have h2 : UpdateResult.ok st false = UpdateResult.ok st2 r := h
      cases h2
      exact ⟨[], by simp⟩
    | Message =>
      cases d with
      | none => exact absurd h (by simp [handleDecoded])
      | some payload =>
        cases hd : decodeMessageData payload with
        | none =>
          rw [handleDecoded_msg_decode_none st da payload hd] at h
          exact absurd h (by simp)
        | some md =>
          rw [handleDecoded_msg_decode_some st da payload md hd] at h
          cases h
          exact ⟨[md], rfl⟩

/-- C10, witness: the frame conditions instantiated at a concrete roster
frame, a concrete chat frame, a concrete submission, and a concrete
successful dispatch. -/
theorem C10_witness :
    (Chat.messages { users := applyRoster ["A"], messages := [] }
      = Chat.messages { users := [], messages := [] })
    ∧ (Chat.users { users := [], messages := [{ «from» := "Bob", message := "hi" }] }
      = Chat.users { users := [], messages := [] })
    ∧ ((submitMessage (some "hello") true { users := [], messages := [] }).state
      = { users := [], messages := [] })
    ∧ (∃ t, Chat.messages { users := [], messages := [{ «from» := "Bob", message := "hi" }] }
      = Chat.messages { users := [], messages := [] } ++ t) := by
  refine ⟨?_, ?_, ?_, ?_⟩
  · exact C10_theorem.1 { users := [], messages := [] } (some ["A"]) none
      { users := applyRoster ["A"], messages := [] } true rfl
  · exact C10_theorem.2.1 { users := [], messages := [] } none
      (some "\x7b\"from\":\"Bob\",\"message\":\"hi\"\x7d")
      { users := [], messages := [{ «from» := "Bob", message := "hi" }] } true (by decide)
  · exact C10_theorem.2.2.1 (some "hello") true { users := [], messages := [] }
  · exact C10_theorem.2.2.2
      { message_type := MsgTypes.Message, data_array := none,
        data := some "\x7b\"from\":\"Bob\",\"message\":\"hi\"\x7d" }
      { users := [], messages := [] }
      { users := [], messages := [{ «from» := "Bob", message := "hi" }] } true (by decide)
